import Mathlib

/-!
Shallow embedding of the ICMPv6 layer decoder from src/layers/icmpv6.rs.

A byte buffer is a List Nat whose entries are u8 values (< 256).  The Rust
decode_bytes method mutates the ICMPv6 struct and returns
Result<(Option<Box<dyn Layer>>, usize), Error>; the next-layer option is
always None for this leaf protocol, so the embedding returns the updated
struct together with a DecodeResult that records either the TooShort error,
a Rust index/slice panic (the out-of-bounds failure branch of slice
indexing such as bytes[8..24]), or success with the consumed byte count.
-/

namespace Scalpel

/-- A buffer is valid when every entry fits in an unsigned byte. -/
def ValidBuf (bytes : List Nat) : Prop := ∀ b ∈ bytes, b < 256

/-- Lowercase hex digit, as produced by hex::encode. -/
def hexChar (n : Nat) : Char :=
  if n < 10 then Char.ofNat (48 + n) else Char.ofNat (87 + n)

/-- Two lowercase hex characters for one byte. -/
def hexEncodeByte (b : Nat) : String :=
  String.mk [hexChar (b / 16), hexChar (b % 16)]

/-- Embedding of hex::encode over a byte buffer. -/
def hexEncode (bytes : List Nat) : String :=
  String.join (bytes.map hexEncodeByte)

/-- IANA Assigned protocol number for ICMP. -/
abbrev IPPROTO_ICMPV6 : Nat := 58
/-- ICMP header length. -/
abbrev ICMPV6_HEADER_LENGTH : Nat := 8

abbrev ICMPV6_DESTINATION_UNREACHABLE : Nat := 1
abbrev ICMPV6_PACKET_TOO_BIG : Nat := 2
abbrev ICMPV6_TIME_EXCEEDED : Nat := 3
abbrev ICMPV6_ECHO_REQUEST : Nat := 128
abbrev ICMPV6_ECHO_REPLY : Nat := 129
abbrev ICMPV6_ROUTER_SOLICITATION : Nat := 133
abbrev ICMPV6_ROUTER_ADVERTISEMENT : Nat := 134
abbrev ICMPV6_NEIGHBOR_SOLICITATION : Nat := 135
abbrev ICMPV6_NEIGHBOR_ADVERTISEMENT : Nat := 136
abbrev ICMPV6_REDIRECT : Nat := 137

structure RouterAdvFlags where
  managed_address_flag : Bool
  other_config : Bool
deriving DecidableEq

structure NeighborAdvFlags where
  from_router : Bool
  solicited_flag : Bool
  override_flag : Bool
deriving DecidableEq

structure Icmpv6Echo where
  identifier : Nat
  sequence_number : Nat
deriving DecidableEq

structure Icmpv6PacketSizeTooBig where
  mtu : Nat
deriving DecidableEq

structure Icmpv6Unsupported where
  unsupported : List Nat
deriving DecidableEq

structure Icmpv6RouterAdvertisement where
  cur_hop_limit : Nat
  flags : RouterAdvFlags
  router_lifetime : Nat
  reachable_time : Nat
  retrans_timer : Nat
deriving DecidableEq

structure Icmpv6NeighborSolicitation where
  target_address : List Nat
deriving DecidableEq

structure Icmpv6NeighborAdvertisement where
  flags : NeighborAdvFlags
  target_address : List Nat
deriving DecidableEq

structure Icmpv6Redirect where
  target_address : List Nat
  destination_address : List Nat
deriving DecidableEq

/-- The payload union from the source, with every variant of the Rust enum,
including the EchoRequest variant that the decoder never constructs. -/
inductive Icmpv6Type where
  | Empty
  | Unsupported (u : Icmpv6Unsupported)
  | EchoRequest (e : Icmpv6Echo)
  | EchoReply (e : Icmpv6Echo)
  | PacketSizeTooBig (p : Icmpv6PacketSizeTooBig)
  | RouterAdvertisement (r : Icmpv6RouterAdvertisement)
  | NeighborSolicitation (n : Icmpv6NeighborSolicitation)
  | NeighborAdvertisement (n : Icmpv6NeighborAdvertisement)
  | Redirect (r : Icmpv6Redirect)
deriving DecidableEq

/-- Structure representing the ICMPv6 Header. -/
structure ICMPv6 where
  icmp_type : Nat
  code : Nat
  checksum : Nat
  rest_of_header : Icmpv6Type
deriving DecidableEq

/-- The derived Default: numeric fields 0, payload variant Empty. -/
def ICMPv6.default : ICMPv6 :=
  { icmp_type := 0, code := 0, checksum := 0, rest_of_header := Icmpv6Type.Empty }

/-- Outcome of one decode call: the TooShort error, a Rust panic from
out-of-range slice indexing, or success with the consumed byte count
(the next-layer component of the Rust Ok value is always None). -/
inductive DecodeResult where
  | tooShort (required : Nat) (available : Nat) (data : String)
  | outOfBounds
  | ok (consumed : Nat)
deriving DecidableEq

/-- Rust range slicing bytes[a..b]: defined when a ≤ b ≤ len, otherwise the
panic branch (none). -/
def slice (bytes : List Nat) (a b : Nat) : Option (List Nat) :=
  if a ≤ b ∧ b ≤ bytes.length then some ((bytes.drop a).take (b - a)) else none

/-- u32::from_be_bytes over a 4-byte slice. -/
def u32_from_be_bytes (l : List Nat) : Nat :=
  l.foldl (fun acc b => acc <<< 8 ||| b) 0

/-- The match on self.icmp_type in decode_bytes (source lines 146-231):
returns the payload variant and the consumed count, or none when a
variant-specific slice index is out of range. -/
def decodeRest (bytes : List Nat) (icmp_type : Nat) : Option (Icmpv6Type × Nat) :=
  if icmp_type = ICMPV6_ECHO_REQUEST then
    let identifier := (bytes.getD 4 0) <<< 8 ||| (bytes.getD 5 0)
    let sequence_number := (bytes.getD 6 0) <<< 8 ||| (bytes.getD 7 0)
    some (Icmpv6Type.EchoReply { identifier := identifier, sequence_number := sequence_number }, 8)
  else if icmp_type = ICMPV6_ECHO_REPLY then
    let identifier := (bytes.getD 4 0) <<< 8 ||| (bytes.getD 5 0)
    let sequence_number := (bytes.getD 6 0) <<< 8 ||| (bytes.getD 7 0)
    some (Icmpv6Type.EchoReply { identifier := identifier, sequence_number := sequence_number }, 8)
  else if icmp_type = ICMPV6_PACKET_TOO_BIG then
    (slice bytes 4 8).map fun s =>
      (Icmpv6Type.PacketSizeTooBig { mtu := u32_from_be_bytes s }, 8)
  else if icmp_type = ICMPV6_DESTINATION_UNREACHABLE ∨ icmp_type = ICMPV6_TIME_EXCEEDED then
    some (Icmpv6Type.Empty, 8)
  else if icmp_type = ICMPV6_ROUTER_ADVERTISEMENT then
    let cur_hop_limit := bytes.getD 4 0
    let managed_address_flag := (((bytes.getD 5 0) >>> 7) &&& 1) == 1
    let other_config := (((bytes.getD 5 0) >>> 6) &&& 1) == 1
    let router_lifetime := (bytes.getD 6 0) <<< 8 ||| (bytes.getD 7 0)
    (slice bytes 8 12).bind fun s1 =>
      (slice bytes 12 16).map fun s2 =>
        (Icmpv6Type.RouterAdvertisement
          { cur_hop_limit := cur_hop_limit,
            flags := { managed_address_flag := managed_address_flag,
                       other_config := other_config },
            router_lifetime := router_lifetime,
            reachable_time := u32_from_be_bytes s1,
            retrans_timer := u32_from_be_bytes s2 }, 16)
  else if icmp_type = ICMPV6_NEIGHBOR_SOLICITATION then
    (slice bytes 8 24).map fun s =>
      (Icmpv6Type.NeighborSolicitation { target_address := s }, 24)
  else if icmp_type = ICMPV6_NEIGHBOR_ADVERTISEMENT then
    let from_router := (((bytes.getD 4 0) >>> 7) &&& 1) == 1
    let solicited_flag := (((bytes.getD 4 0) >>> 6) &&& 1) == 1
    let override_flag := (((bytes.getD 4 0) >>> 5) &&& 1) == 1
    (slice bytes 8 24).map fun s =>
      (Icmpv6Type.NeighborAdvertisement
        { flags := { from_router := from_router,
                     solicited_flag := solicited_flag,
                     override_flag := override_flag },
          target_address := s }, 24)
  else if icmp_type = ICMPV6_REDIRECT then
    (slice bytes 8 24).bind fun t =>
      (slice bytes 24 40).map fun d =>
        (Icmpv6Type.Redirect { target_address := t, destination_address := d }, 40)
  else
    some (Icmpv6Type.Unsupported { unsupported := bytes.drop 4 }, bytes.length)

/-- Embedding of ICMPv6::decode_bytes: the length guard, the three fixed
header fields, then the variant dispatch.  On the TooShort path the struct
is returned unchanged; on the panic path the header fields were already
written but the payload field was not. -/
def decode_bytes (self : ICMPv6) (bytes : List Nat) : ICMPv6 × DecodeResult :=
  if bytes.length < ICMPV6_HEADER_LENGTH then
    (self, DecodeResult.tooShort ICMPV6_HEADER_LENGTH bytes.length (hexEncode bytes))
  else
    let icmp_type := bytes.getD 0 0
    let code := bytes.getD 1 0
    let checksum := (bytes.getD 2 0) <<< 8 ||| (bytes.getD 3 0)
    match decodeRest bytes icmp_type with
    | some (rest_of_header, decoded) =>
        ({ icmp_type := icmp_type, code := code, checksum := checksum,
           rest_of_header := rest_of_header }, DecodeResult.ok decoded)
    | none =>
        ({ icmp_type := icmp_type, code := code, checksum := checksum,
           rest_of_header := self.rest_of_header }, DecodeResult.outOfBounds)

instance (bytes : List Nat) : Decidable (ValidBuf bytes) :=
  inferInstanceAs (Decidable (∀ b ∈ bytes, b < 256))

theorem valid_getD (bytes : List Nat) (hv : ValidBuf bytes) (i : Nat) :
    bytes.getD i 0 < 256 := by
  rcases h : bytes[i]? with _ | v
  · simp [List.getD_eq_getElem?_getD, h]
  · have hm : v ∈ bytes := by
      have hlt : i < bytes.length := by
        by_contra hge
        rw [List.getElem?_eq_none (by omega)] at h
        exact Option.noConfusion h
      rw [List.getElem?_eq_getElem hlt] at h
      cases h
      exact List.getElem_mem hlt
    have := hv v hm
    simp [List.getD_eq_getElem?_getD, h]
    exact this

theorem or_shift_add (a b : Nat) (hb : b < 256) : a <<< 8 ||| b = a * 256 + b := by
  have h := Nat.mul_add_lt_is_or (show b < 2 ^ 8 by simpa using hb) a
  rw [Nat.shiftLeft_eq]
  calc a * 2 ^ 8 ||| b = 2 ^ 8 * a ||| b := by rw [Nat.mul_comm]
    _ = 2 ^ 8 * a + b := h.symm
    _ = a * 256 + b := by ring

theorem flagBit (n k : Nat) : (((n >>> k) &&& 1) == 1) = n.testBit k := by
  rw [Bool.eq_iff_iff]
  simp [Nat.testBit_to_div_mod, Nat.and_one_is_mod, Nat.shiftRight_eq_div_pow]

theorem getD_drop_eq (l : List Nat) (n i : Nat) :
    (l.drop n).getD i 0 = l.getD (n + i) 0 := by
  simp [List.getD_eq_getElem?_getD, List.getElem?_drop]

theorem take_four (l : List Nat) (h : 4 ≤ l.length) :
    l.take 4 = [l.getD 0 0, l.getD 1 0, l.getD 2 0, l.getD 3 0] := by
  rcases l with _ | ⟨a, _ | ⟨b, _ | ⟨c, _ | ⟨d, t⟩⟩⟩⟩
  · simp at h
  · simp at h
  · simp at h
  · simp at h
  · rfl

theorem u32_be_four (a b c d : Nat) (hb : b < 256) (hc : c < 256) (hd : d < 256) :
    u32_from_be_bytes [a, b, c, d] = ((a * 256 + b) * 256 + c) * 256 + d := by
  have h0 : (0 : Nat) <<< 8 ||| a = a := by simp [Nat.shiftLeft_eq]
  show ((((0 : Nat) <<< 8 ||| a) <<< 8 ||| b) <<< 8 ||| c) <<< 8 ||| d =
    ((a * 256 + b) * 256 + c) * 256 + d
  rw [h0, or_shift_add _ _ hb, or_shift_add _ _ hc, or_shift_add _ _ hd]

theorem slice_some (bytes : List Nat) (a b : Nat) (h1 : a ≤ b) (h2 : b ≤ bytes.length) :
    slice bytes a b = some ((bytes.drop a).take (b - a)) := by
  simp [slice, h1, h2]

theorem slice_none (bytes : List Nat) (a b : Nat) (h : bytes.length < b) :
    slice bytes a b = none := by
  unfold slice
  rw [if_neg (by omega)]

theorem decode_bytes_eq_of_ge (self : ICMPv6) (bytes : List Nat) (h : 8 ≤ bytes.length) :
    decode_bytes self bytes =
      match decodeRest bytes (bytes.getD 0 0) with
      | some (r, n) =>
          ({ icmp_type := bytes.getD 0 0, code := bytes.getD 1 0,
             checksum := (bytes.getD 2 0) <<< 8 ||| (bytes.getD 3 0),
             rest_of_header := r }, DecodeResult.ok n)
      | none =>
          ({ icmp_type := bytes.getD 0 0, code := bytes.getD 1 0,
             checksum := (bytes.getD 2 0) <<< 8 ||| (bytes.getD 3 0),
             rest_of_header := self.rest_of_header }, DecodeResult.outOfBounds) := by
  unfold decode_bytes
  rw [if_neg (show ¬ bytes.length < ICMPV6_HEADER_LENGTH by
    simp only [ICMPV6_HEADER_LENGTH]
    omega)]

theorem decodeRest_echo_request (bytes : List Nat) :
    decodeRest bytes ICMPV6_ECHO_REQUEST =
      some (Icmpv6Type.EchoReply
        { identifier := (bytes.getD 4 0) <<< 8 ||| (bytes.getD 5 0),
          sequence_number := (bytes.getD 6 0) <<< 8 ||| (bytes.getD 7 0) }, 8) := rfl

theorem decodeRest_echo_reply (bytes : List Nat) :
    decodeRest bytes ICMPV6_ECHO_REPLY =
      some (Icmpv6Type.EchoReply
        { identifier := (bytes.getD 4 0) <<< 8 ||| (bytes.getD 5 0),
          sequence_number := (bytes.getD 6 0) <<< 8 ||| (bytes.getD 7 0) }, 8) := rfl

theorem decodeRest_router_solicitation (bytes : List Nat) :
    decodeRest bytes ICMPV6_ROUTER_SOLICITATION =
      some (Icmpv6Type.Unsupported { unsupported := bytes.drop 4 }, bytes.length) := rfl

theorem decodeRest_router_advertisement (bytes : List Nat) :
    decodeRest bytes ICMPV6_ROUTER_ADVERTISEMENT =
      (slice bytes 8 12).bind fun s1 =>
        (slice bytes 12 16).map fun s2 =>
          (Icmpv6Type.RouterAdvertisement
            { cur_hop_limit := bytes.getD 4 0,
              flags := { managed_address_flag := (((bytes.getD 5 0) >>> 7) &&& 1) == 1,
                         other_config := (((bytes.getD 5 0) >>> 6) &&& 1) == 1 },
              router_lifetime := (bytes.getD 6 0) <<< 8 ||| (bytes.getD 7 0),
              reachable_time := u32_from_be_bytes s1,
              retrans_timer := u32_from_be_bytes s2 }, 16) := rfl

theorem decodeRest_neighbor_solicitation (bytes : List Nat) :
    decodeRest bytes ICMPV6_NEIGHBOR_SOLICITATION =
      (slice bytes 8 24).map fun s =>
        (Icmpv6Type.NeighborSolicitation { target_address := s }, 24) := rfl

theorem decodeRest_neighbor_advertisement (bytes : List Nat) :
    decodeRest bytes ICMPV6_NEIGHBOR_ADVERTISEMENT =
      (slice bytes 8 24).map fun s =>
        (Icmpv6Type.NeighborAdvertisement
          { flags := { from_router := (((bytes.getD 4 0) >>> 7) &&& 1) == 1,
                       solicited_flag := (((bytes.getD 4 0) >>> 6) &&& 1) == 1,
                       override_flag := (((bytes.getD 4 0) >>> 5) &&& 1) == 1 },
            target_address := s }, 24) := rfl

theorem decodeRest_redirect (bytes : List Nat) :
    decodeRest bytes ICMPV6_REDIRECT =
      (slice bytes 8 24).bind fun t =>
        (slice bytes 24 40).map fun d =>
          (Icmpv6Type.Redirect { target_address := t, destination_address := d }, 40) := rfl

theorem decodeRest_default_arm (bytes : List Nat) (ty : Nat)
    (h1 : ty ≠ 1) (h2 : ty ≠ 2) (h3 : ty ≠ 3) (h128 : ty ≠ 128) (h129 : ty ≠ 129)
    (h134 : ty ≠ 134) (h135 : ty ≠ 135) (h136 : ty ≠ 136) (h137 : ty ≠ 137) :
    decodeRest bytes ty =
      some (Icmpv6Type.Unsupported { unsupported := bytes.drop 4 }, bytes.length) := by
  unfold decodeRest
  rw [if_neg h128, if_neg h129, if_neg h2,
    if_neg (show ¬ (ty = ICMPV6_DESTINATION_UNREACHABLE ∨ ty = ICMPV6_TIME_EXCEEDED) from
      fun h => h.elim h1 h3),
    if_neg h134, if_neg h135, if_neg h136, if_neg h137]

theorem decodeRest_packet_too_big (bytes : List Nat) :
    decodeRest bytes ICMPV6_PACKET_TOO_BIG =
      (slice bytes 4 8).map fun s =>
        (Icmpv6Type.PacketSizeTooBig { mtu := u32_from_be_bytes s }, 8) := rfl

theorem decodeRest_dest_unreachable (bytes : List Nat) :
    decodeRest bytes ICMPV6_DESTINATION_UNREACHABLE = some (Icmpv6Type.Empty, 8) := rfl

theorem decodeRest_time_exceeded (bytes : List Nat) :
    decodeRest bytes ICMPV6_TIME_EXCEEDED = some (Icmpv6Type.Empty, 8) := rfl

theorem decodeRest_not_echoRequest (bytes : List Nat) (ty : Nat) (r : Icmpv6Type) (n : Nat)
    (h : decodeRest bytes ty = some (r, n)) (e : Icmpv6Echo) :
    r ≠ Icmpv6Type.EchoRequest e := by
  by_cases t1 : ty = ICMPV6_ECHO_REQUEST
  · subst t1
    rw [decodeRest_echo_request] at h
    injection h with h
    injection h with h1 h2
    subst h1
    exact fun hc => Icmpv6Type.noConfusion hc
  by_cases t2 : ty = ICMPV6_ECHO_REPLY
  · subst t2
    rw [decodeRest_echo_reply] at h
    injection h with h
    injection h with h1 h2
    subst h1
    exact fun hc => Icmpv6Type.noConfusion hc
  by_cases t3 : ty = ICMPV6_PACKET_TOO_BIG
  · subst t3
    rw [decodeRest_packet_too_big, Option.map_eq_some'] at h
    obtain ⟨s, hs, hf⟩ := h
    injection hf with h1 h2
    subst h1
    exact fun hc => Icmpv6Type.noConfusion hc
  by_cases t4 : ty = ICMPV6_DESTINATION_UNREACHABLE
  · subst t4
    rw [decodeRest_dest_unreachable] at h
    injection h with h
    injection h with h1 h2
    subst h1
    exact fun hc => Icmpv6Type.noConfusion hc
  by_cases t5 : ty = ICMPV6_TIME_EXCEEDED
  · subst t5
    rw [decodeRest_time_exceeded] at h
    injection h with h
    injection h with h1 h2
    subst h1
    exact fun hc => Icmpv6Type.noConfusion hc
  by_cases t6 : ty = ICMPV6_ROUTER_ADVERTISEMENT
  · subst t6
    rw [decodeRest_router_advertisement, Option.bind_eq_some] at h
    obtain ⟨s1, hs1, h⟩ := h
    rw [Option.map_eq_some'] at h
    obtain ⟨s2, hs2, hf⟩ := h
    injection hf with h1 h2
    subst h1
    exact fun hc => Icmpv6Type.noConfusion hc
  by_cases t7 : ty = ICMPV6_NEIGHBOR_SOLICITATION
  · subst t7
    rw [decodeRest_neighbor_solicitation, Option.map_eq_some'] at h
    obtain ⟨s, hs, hf⟩ := h
    injection hf with h1 h2
    subst h1
    exact fun hc => Icmpv6Type.noConfusion hc
  by_cases t8 : ty = ICMPV6_NEIGHBOR_ADVERTISEMENT
  · subst t8
    rw [decodeRest_neighbor_advertisement, Option.map_eq_some'] at h
    obtain ⟨s, hs, hf⟩ := h
    injection hf with h1 h2
    subst h1
    exact fun hc => Icmpv6Type.noConfusion hc
  by_cases t9 : ty = ICMPV6_REDIRECT
  · subst t9
    rw [decodeRest_redirect, Option.bind_eq_some] at h
    obtain ⟨s1, hs1, h⟩ := h
    rw [Option.map_eq_some'] at h
    obtain ⟨s2, hs2, hf⟩ := h
    injection hf with h1 h2
    subst h1
    exact fun hc => Icmpv6Type.noConfusion hc
  rw [decodeRest_default_arm bytes ty t4 t3 t5 t1 t2 t6 t7 t8 t9] at h
  injection h with h
  injection h with h1 h2
  subst h1
  exact fun hc => Icmpv6Type.noConfusion hc

/-- C1 counterexample: a 9-byte buffer with type code 133 decodes to the
Unsupported variant consuming the whole buffer, not Empty with consumed 8. -/
theorem router_solicitation_claim_false :
    ¬ ((decode_bytes ICMPv6.default [133, 0, 0, 0, 0, 0, 0, 0, 5]).1.rest_of_header =
         Icmpv6Type.Empty ∧
       (decode_bytes ICMPv6.default [133, 0, 0, 0, 0, 0, 0, 0, 5]).2 =
         DecodeResult.ok 8) := by
  decide

/-- C1 amended: type code 133 is not matched by any arm of the dispatch, so a
buffer of at least 8 bytes with first byte 133 decodes to the Unsupported
variant holding the bytes from offset 4, consuming the whole buffer. -/
theorem router_solicitation_unsupported (bytes : List Nat) (h8 : 8 ≤ bytes.length)
    (ht : bytes.getD 0 0 = ICMPV6_ROUTER_SOLICITATION) :
    (decode_bytes ICMPv6.default bytes).1.rest_of_header =
      Icmpv6Type.Unsupported { unsupported := bytes.drop 4 } ∧
    (decode_bytes ICMPv6.default bytes).2 = DecodeResult.ok bytes.length := by
  rw [decode_bytes_eq_of_ge _ _ h8, ht, decodeRest_router_solicitation bytes]
  exact ⟨rfl, rfl⟩

theorem router_solicitation_unsupported_witness :
    (decode_bytes ICMPv6.default [133, 0, 0, 0, 0, 0, 0, 0]).1.rest_of_header =
      Icmpv6Type.Unsupported { unsupported := [0, 0, 0, 0] } ∧
    (decode_bytes ICMPv6.default [133, 0, 0, 0, 0, 0, 0, 0]).2 = DecodeResult.ok 8 := by
  have h := router_solicitation_unsupported [133, 0, 0, 0, 0, 0, 0, 0] (by decide) (by decide)
  simpa using h

/-- C2: a buffer shorter than 8 bytes fails with TooShort carrying required 8,
available equal to the buffer length, and the hex dump of the bytes; a buffer
of length at least 8 never yields TooShort. -/
theorem decode_tooShort_iff_short (self : ICMPv6) (bytes : List Nat) :
    (bytes.length < 8 →
      (decode_bytes self bytes).2 =
        DecodeResult.tooShort 8 bytes.length (hexEncode bytes)) ∧
    (8 ≤ bytes.length →
      ∀ r a d, (decode_bytes self bytes).2 ≠ DecodeResult.tooShort r a d) := by
  constructor
  · intro h
    simp [decode_bytes, ICMPV6_HEADER_LENGTH, h]
  · intro h r a d
    rw [decode_bytes_eq_of_ge self bytes h]
    rcases hdr : decodeRest bytes (bytes.getD 0 0) with _ | ⟨r2, n⟩ <;> simp

theorem decode_tooShort_iff_short_witness :
    (decode_bytes ICMPv6.default [171]).2 =
      DecodeResult.tooShort 8 1 (hexEncode [171]) ∧
    (decode_bytes ICMPv6.default [0, 0, 0, 0, 0, 0, 0, 0]).2 ≠
      DecodeResult.tooShort 8 8 (hexEncode [0, 0, 0, 0, 0, 0, 0, 0]) :=
  ⟨by simpa using (decode_tooShort_iff_short ICMPv6.default [171]).1 (by decide),
   (decode_tooShort_iff_short ICMPv6.default [0, 0, 0, 0, 0, 0, 0, 0]).2 (by decide) 8 8 _⟩

/-- C3: for type code 128 or 129 on a buffer of at least 8 valid bytes, the
payload carries identifier = big-endian bytes 4-5 and sequence_number =
big-endian bytes 6-7, and 8 bytes are consumed. -/
theorem echo_decode (bytes : List Nat) (hv : ValidBuf bytes) (h8 : 8 ≤ bytes.length)
    (ht : bytes.getD 0 0 = ICMPV6_ECHO_REQUEST ∨ bytes.getD 0 0 = ICMPV6_ECHO_REPLY) :
    (decode_bytes ICMPv6.default bytes).1.rest_of_header =
      Icmpv6Type.EchoReply
        { identifier := bytes.getD 4 0 * 256 + bytes.getD 5 0,
          sequence_number := bytes.getD 6 0 * 256 + bytes.getD 7 0 } ∧
    (decode_bytes ICMPv6.default bytes).2 = DecodeResult.ok 8 := by
  have h5 := valid_getD bytes hv 5
  have h7 := valid_getD bytes hv 7
  rcases ht with ht | ht
  · rw [decode_bytes_eq_of_ge _ _ h8, ht, decodeRest_echo_request bytes,
      or_shift_add _ _ h5, or_shift_add _ _ h7]
    exact ⟨rfl, rfl⟩
  · rw [decode_bytes_eq_of_ge _ _ h8, ht, decodeRest_echo_reply bytes,
      or_shift_add _ _ h5, or_shift_add _ _ h7]
    exact ⟨rfl, rfl⟩

theorem echo_decode_witness :
    ((decode_bytes ICMPv6.default [128, 0, 201, 42, 14, 32, 0, 1]).1.rest_of_header =
       Icmpv6Type.EchoReply { identifier := 3616, sequence_number := 1 } ∧
     (decode_bytes ICMPv6.default [128, 0, 201, 42, 14, 32, 0, 1]).2 =
       DecodeResult.ok 8) ∧
    (decode_bytes ICMPv6.default [128, 0, 201, 42, 14, 32, 0, 1]).1.icmp_type = 128 ∧
    (decode_bytes ICMPv6.default [128, 0, 201, 42, 14, 32, 0, 1]).1.code = 0 ∧
    (decode_bytes ICMPv6.default [128, 0, 201, 42, 14, 32, 0, 1]).1.checksum = 51498 := by
  refine ⟨?_, by decide, by decide, by decide⟩
  have h := echo_decode [128, 0, 201, 42, 14, 32, 0, 1] (by decide) (by decide)
    (Or.inl (by decide))
  simpa using h

/-- C4: with at least 8 bytes, a type 128 buffer and the same buffer with the
first byte replaced by 129 decode to the same payload variant and fields, and
the EchoRequest variant is never produced by decode for any input. -/
theorem echo_request_reply_equivalence (t : List Nat) (h7 : 7 ≤ t.length) :
    (decode_bytes ICMPv6.default (128 :: t)).1.rest_of_header =
      (decode_bytes ICMPv6.default (129 :: t)).1.rest_of_header ∧
    ∀ (bytes : List Nat) (e : Icmpv6Echo),
      (decode_bytes ICMPv6.default bytes).1.rest_of_header ≠
        Icmpv6Type.EchoRequest e := by
  constructor
  · have h1 : 8 ≤ (128 :: t).length := by simp; omega
    have h2 : 8 ≤ (129 :: t).length := by simp; omega
    have e1 : (128 :: t).getD 0 0 = ICMPV6_ECHO_REQUEST := rfl
    have e2 : (129 :: t).getD 0 0 = ICMPV6_ECHO_REPLY := rfl
    rw [decode_bytes_eq_of_ge _ _ h1, decode_bytes_eq_of_ge _ _ h2, e1, e2,
      decodeRest_echo_request, decodeRest_echo_reply]
    simp
  · intro bytes e
    by_cases hb : bytes.length < 8
    · simp [decode_bytes, ICMPV6_HEADER_LENGTH, hb, ICMPv6.default]
    · rw [decode_bytes_eq_of_ge _ _ (by omega)]
      rcases hdr : decodeRest bytes (bytes.getD 0 0) with _ | ⟨r, n⟩
      · simp [ICMPv6.default]
      · simpa using decodeRest_not_echoRequest bytes _ r n hdr e

theorem echo_request_reply_equivalence_witness :
    (decode_bytes ICMPv6.default [128, 0, 0, 0, 0, 0, 0, 0]).1.rest_of_header =
      (decode_bytes ICMPv6.default [129, 0, 0, 0, 0, 0, 0, 0]).1.rest_of_header ∧
    (decode_bytes ICMPv6.default [128, 0, 0, 0, 0, 0, 0, 0]).1.rest_of_header ≠
      Icmpv6Type.EchoRequest { identifier := 0, sequence_number := 0 } :=
  ⟨(echo_request_reply_equivalence [0, 0, 0, 0, 0, 0, 0] (by decide)).1,
   (echo_request_reply_equivalence [0, 0, 0, 0, 0, 0, 0] (by decide)).2
     [128, 0, 0, 0, 0, 0, 0, 0] { identifier := 0, sequence_number := 0 }⟩

/-- C5: for type code 134 on a buffer of at least 16 valid bytes, the payload
is a RouterAdvertisement with hop limit from byte 4, the two flags from bits
7 and 6 of byte 5, lifetime from bytes 6-7, reachable time from bytes 8-11,
retransmit timer from bytes 12-15, consuming 16 bytes. -/
theorem router_advertisement_decode (bytes : List Nat) (hv : ValidBuf bytes)
    (h16 : 16 ≤ bytes.length) (ht : bytes.getD 0 0 = ICMPV6_ROUTER_ADVERTISEMENT) :
    (decode_bytes ICMPv6.default bytes).1.rest_of_header =
      Icmpv6Type.RouterAdvertisement
        { cur_hop_limit := bytes.getD 4 0,
          flags := { managed_address_flag := (bytes.getD 5 0).testBit 7,
                     other_config := (bytes.getD 5 0).testBit 6 },
          router_lifetime := bytes.getD 6 0 * 256 + bytes.getD 7 0,
          reachable_time :=
            ((bytes.getD 8 0 * 256 + bytes.getD 9 0) * 256 + bytes.getD 10 0) * 256
              + bytes.getD 11 0,
          retrans_timer :=
            ((bytes.getD 12 0 * 256 + bytes.getD 13 0) * 256 + bytes.getD 14 0) * 256
              + bytes.getD 15 0 } ∧
    (decode_bytes ICMPv6.default bytes).2 = DecodeResult.ok 16 := by
  have h7 := valid_getD bytes hv 7
  have h9 := valid_getD bytes hv 9
  have h10 := valid_getD bytes hv 10
  have h11 := valid_getD bytes hv 11
  have h13 := valid_getD bytes hv 13
  have h14 := valid_getD bytes hv 14
  have h15 := valid_getD bytes hv 15
  have hs1 : slice bytes 8 12 =
      some [bytes.getD 8 0, bytes.getD 9 0, bytes.getD 10 0, bytes.getD 11 0] := by
    rw [slice_some bytes 8 12 (by omega) (by omega)]
    have he : (12 : Nat) - 8 = 4 := rfl
    rw [he, take_four _ (by simp; omega)]
    simp [getD_drop_eq]
  have hs2 : slice bytes 12 16 =
      some [bytes.getD 12 0, bytes.getD 13 0, bytes.getD 14 0, bytes.getD 15 0] := by
    rw [slice_some bytes 12 16 (by omega) (by omega)]
    have he : (16 : Nat) - 12 = 4 := rfl
    rw [he, take_four _ (by simp; omega)]
    simp [getD_drop_eq]
  rw [decode_bytes_eq_of_ge _ _ (show (8 : Nat) ≤ bytes.length by omega), ht,
    decodeRest_router_advertisement bytes]
  simp only [hs1, hs2, Option.some_bind, Option.map_some']
  rw [u32_be_four _ _ _ _ h9 h10 h11, u32_be_four _ _ _ _ h13 h14 h15,
    or_shift_add _ _ h7, flagBit, flagBit]
  constructor <;> trivial

theorem router_advertisement_decode_witness :
    ((decode_bytes ICMPv6.default
        [134, 0, 0, 0, 17, 192, 1, 2, 0, 0, 1, 0, 0, 0, 0, 2]).1.rest_of_header =
      Icmpv6Type.RouterAdvertisement
        { cur_hop_limit := 17,
          flags := { managed_address_flag := true, other_config := true },
          router_lifetime := 258, reachable_time := 256, retrans_timer := 2 } ∧
     (decode_bytes ICMPv6.default
        [134, 0, 0, 0, 17, 192, 1, 2, 0, 0, 1, 0, 0, 0, 0, 2]).2 =
       DecodeResult.ok 16) ∧
    (decode_bytes ICMPv6.default
        [134, 0, 0, 0, 17, 0, 1, 2, 0, 0, 1, 0, 0, 0, 0, 2]).1.rest_of_header =
      Icmpv6Type.RouterAdvertisement
        { cur_hop_limit := 17,
          flags := { managed_address_flag := false, other_config := false },
          router_lifetime := 258, reachable_time := 256, retrans_timer := 2 } := by
  refine ⟨?_, by decide⟩
  have h := router_advertisement_decode
    [134, 0, 0, 0, 17, 192, 1, 2, 0, 0, 1, 0, 0, 0, 0, 2]
    (by decide) (by decide) (by decide)
  simpa using h

/-- C6: for a buffer of at least 8 bytes whose type code is none of the
tabulated codes, decoding succeeds with the Unsupported payload holding
exactly the bytes from offset 4, consuming the whole buffer. -/
theorem unsupported_decode (bytes : List Nat) (h8 : 8 ≤ bytes.length)
    (ht : bytes.getD 0 0 ∉ ([1, 2, 3, 128, 129, 133, 134, 135, 136, 137] : List Nat)) :
    (decode_bytes ICMPv6.default bytes).1.rest_of_header =
      Icmpv6Type.Unsupported { unsupported := bytes.drop 4 } ∧
    (decode_bytes ICMPv6.default bytes).2 = DecodeResult.ok bytes.length := by
  simp only [List.mem_cons, List.not_mem_nil, or_false, not_or] at ht
  obtain ⟨n1, n2, n3, n128, n129, n133, n134, n135, n136, n137⟩ := ht
  rw [decode_bytes_eq_of_ge _ _ h8,
    decodeRest_default_arm bytes _ n1 n2 n3 n128 n129 n134 n135 n136 n137]
  constructor <;> trivial

theorem unsupported_decode_witness :
    (decode_bytes ICMPv6.default [16, 0, 0, 0, 9, 8, 7, 6, 5]).1.rest_of_header =
      Icmpv6Type.Unsupported { unsupported := [9, 8, 7, 6, 5] } ∧
    (decode_bytes ICMPv6.default [16, 0, 0, 0, 9, 8, 7, 6, 5]).2 =
      DecodeResult.ok 9 := by
  have h := unsupported_decode [16, 0, 0, 0, 9, 8, 7, 6, 5] (by decide) (by decide)
  simpa using h

/-- C7: for type code 137 on a buffer of at least 40 bytes, the payload is a
Redirect whose target address is the 16 bytes at offsets 8-23 and whose
destination address is the 16 bytes at offsets 24-39, consuming 40 bytes. -/
theorem redirect_decode (bytes : List Nat) (h40 : 40 ≤ bytes.length)
    (ht : bytes.getD 0 0 = ICMPV6_REDIRECT) :
    (decode_bytes ICMPv6.default bytes).1.rest_of_header =
      Icmpv6Type.Redirect
        { target_address := (bytes.drop 8).take 16,
          destination_address := (bytes.drop 24).take 16 } ∧
    (decode_bytes ICMPv6.default bytes).2 = DecodeResult.ok 40 := by
  have hs1 : slice bytes 8 24 = some ((bytes.drop 8).take 16) := by
    rw [slice_some bytes 8 24 (by omega) (by omega)]
  have hs2 : slice bytes 24 40 = some ((bytes.drop 24).take 16) := by
    rw [slice_some bytes 24 40 (by omega) (by omega)]
  rw [decode_bytes_eq_of_ge _ _ (show (8 : Nat) ≤ bytes.length by omega), ht,
    decodeRest_redirect bytes]
  simp only [hs1, hs2, Option.some_bind, Option.map_some']
  constructor <;> trivial

theorem redirect_decode_witness :
    (decode_bytes ICMPv6.default
      [137, 0, 0, 0, 0, 0, 0, 0,
       1, 2, 3, 4, 5, 6, 7, 8, 9, 10, 11, 12, 13, 14, 15, 16,
       21, 22, 23, 24, 25, 26, 27, 28, 29, 30, 31, 32, 33, 34, 35, 36]).1.rest_of_header =
      Icmpv6Type.Redirect
        { target_address := [1, 2, 3, 4, 5, 6, 7, 8, 9, 10, 11, 12, 13, 14, 15, 16],
          destination_address :=
            [21, 22, 23, 24, 25, 26, 27, 28, 29, 30, 31, 32, 33, 34, 35, 36] } ∧
    (decode_bytes ICMPv6.default
      [137, 0, 0, 0, 0, 0, 0, 0,
       1, 2, 3, 4, 5, 6, 7, 8, 9, 10, 11, 12, 13, 14, 15, 16,
       21, 22, 23, 24, 25, 26, 27, 28, 29, 30, 31, 32, 33, 34, 35, 36]).2 =
      DecodeResult.ok 40 := by
  have h := redirect_decode
    [137, 0, 0, 0, 0, 0, 0, 0,
     1, 2, 3, 4, 5, 6, 7, 8, 9, 10, 11, 12, 13, 14, 15, 16,
     21, 22, 23, 24, 25, 26, 27, 28, 29, 30, 31, 32, 33, 34, 35, 36]
    (by decide) (by decide)
  simpa using h

/-- C8: for type code 136 on a buffer of at least 24 bytes, the payload is a
NeighborAdvertisement whose three flags come from bits 7, 6 and 5 of byte 4
and whose target address is the 16 bytes at offsets 8-23, consuming 24. -/
theorem neighbor_advertisement_decode (bytes : List Nat) (h24 : 24 ≤ bytes.length)
    (ht : bytes.getD 0 0 = ICMPV6_NEIGHBOR_ADVERTISEMENT) :
    (decode_bytes ICMPv6.default bytes).1.rest_of_header =
      Icmpv6Type.NeighborAdvertisement
        { flags := { from_router := (bytes.getD 4 0).testBit 7,
                     solicited_flag := (bytes.getD 4 0).testBit 6,
                     override_flag := (bytes.getD 4 0).testBit 5 },
          target_address := (bytes.drop 8).take 16 } ∧
    (decode_bytes ICMPv6.default bytes).2 = DecodeResult.ok 24 := by
  have hs : slice bytes 8 24 = some ((bytes.drop 8).take 16) := by
    rw [slice_some bytes 8 24 (by omega) (by omega)]
  rw [decode_bytes_eq_of_ge _ _ (show (8 : Nat) ≤ bytes.length by omega), ht,
    decodeRest_neighbor_advertisement bytes]
  simp only [hs, Option.map_some']
  rw [flagBit, flagBit, flagBit]
  constructor <;> trivial

theorem neighbor_advertisement_decode_witness :
    (decode_bytes ICMPv6.default
      [136, 0, 0, 0, 224, 0, 0, 0,
       1, 2, 3, 4, 5, 6, 7, 8, 9, 10, 11, 12, 13, 14, 15, 16]).1.rest_of_header =
      Icmpv6Type.NeighborAdvertisement
        { flags := { from_router := true, solicited_flag := true, override_flag := true },
          target_address := [1, 2, 3, 4, 5, 6, 7, 8, 9, 10, 11, 12, 13, 14, 15, 16] } ∧
    (decode_bytes ICMPv6.default
      [136, 0, 0, 0, 224, 0, 0, 0,
       1, 2, 3, 4, 5, 6, 7, 8, 9, 10, 11, 12, 13, 14, 15, 16]).2 =
      DecodeResult.ok 24 := by
  have h := neighbor_advertisement_decode
    [136, 0, 0, 0, 224, 0, 0, 0,
     1, 2, 3, 4, 5, 6, 7, 8, 9, 10, 11, 12, 13, 14, 15, 16]
    (by decide) (by decide)
  simpa using h

/-- C9: only the 8-byte minimum is checked; when the type code declares a
suffix extending past the end of the buffer, decode neither returns TooShort
nor succeeds: the out-of-range slice indexing branch is reached. -/
theorem truncated_suffix_out_of_bounds (self : ICMPv6) (bytes : List Nat)
    (h8 : 8 ≤ bytes.length)
    (h : (bytes.getD 0 0 = ICMPV6_ROUTER_ADVERTISEMENT ∧ bytes.length < 16) ∨
         ((bytes.getD 0 0 = ICMPV6_NEIGHBOR_SOLICITATION ∨
           bytes.getD 0 0 = ICMPV6_NEIGHBOR_ADVERTISEMENT) ∧ bytes.length < 24) ∨
         (bytes.getD 0 0 = ICMPV6_REDIRECT ∧ bytes.length < 40)) :
    (decode_bytes self bytes).2 = DecodeResult.outOfBounds := by
  have hd : decodeRest bytes (bytes.getD 0 0) = none := by
    rcases h with ⟨ht, hl⟩ | ⟨ht | ht, hl⟩ | ⟨ht, hl⟩
    · rw [ht, decodeRest_router_advertisement bytes]
      by_cases h12 : bytes.length < 12
      · simp [slice_none bytes 8 12 h12]
      · simp [slice_some bytes 8 12 (by omega) (by omega),
          slice_none bytes 12 16 (by omega)]
    · rw [ht, decodeRest_neighbor_solicitation bytes]
      simp [slice_none bytes 8 24 (by omega)]
    · rw [ht, decodeRest_neighbor_advertisement bytes]
      simp [slice_none bytes 8 24 (by omega)]
    · rw [ht, decodeRest_redirect bytes]
      by_cases h24 : bytes.length < 24
      · simp [slice_none bytes 8 24 h24]
      · simp [slice_some bytes 8 24 (by omega) (by omega),
          slice_none bytes 24 40 (by omega)]
  rw [decode_bytes_eq_of_ge _ _ h8, hd]

theorem truncated_suffix_out_of_bounds_witness :
    (decode_bytes ICMPv6.default [134, 0, 0, 0, 0, 0, 0, 0]).2 =
      DecodeResult.outOfBounds :=
  truncated_suffix_out_of_bounds ICMPv6.default [134, 0, 0, 0, 0, 0, 0, 0]
    (by decide) (Or.inl (by decide))

/-- C10: a too-short buffer leaves the decoder struct exactly as it was before
the call, so a fresh default decoder still holds its default fields. -/
theorem tooShort_preserves_state (self : ICMPv6) (bytes : List Nat)
    (h : bytes.length < 8) :
    (decode_bytes self bytes).1 = self := by
  simp [decode_bytes, ICMPV6_HEADER_LENGTH, h]

theorem tooShort_preserves_state_witness :
    (decode_bytes ICMPv6.default [18, 52, 86]).1 = ICMPv6.default :=
  tooShort_preserves_state ICMPv6.default [18, 52, 86] (by decide)

end Scalpel
